import Mathlib

/-!
Verification of the traffic-light sequencer firmware in `Semaforo_2.c`.

The program consists of:
* two process-wide variables `sequence_active : bool` and `step : int`;
* a debounce routine `botao_pressionado_debounce` that samples the button
  line (pull-up: reads 1 when released, 0 when pressed), confirms a press
  after 50 ms, then polls every 10 ms until release and reports a click;
* a one-shot alarm callback `alarm_callback` that advances the phase
  1 -> 2 -> 3 -> 0, writes the LED pattern of the new phase, and re-arms
  a 3000 ms alarm except on the return to phase 0;
* a main loop that, when `!sequence_active && botao_pressionado_debounce()`,
  enters phase 1, lights all three LEDs, and arms the first alarm.

Embedding choices:
* The button line is a trace `Nat -> Bool`, the logic level as a function of
  the time (in ms) elapsed since the debounce routine was entered; `true`
  means the line reads 1 (released, pull-up at rest), `false` means 0
  (pressed).  `gpio_get(BOTAO)` at elapsed time `t` is `σ t`.
* The blocking release-wait loop is given fuel; exhausting the fuel yields
  `none`, modelling a call that has not yet returned.
* The one-shot alarm facility is modelled by a counter `pending` of armed
  callbacks; `add_alarm_in_ms` increments it and delivering a callback
  consumes one.
* LED output latches are three booleans in the state; `gpio_put` is a
  field update.
-/

/-- Logic level of the button input line as a function of elapsed time in ms:
`true` = reads 1 (released, pull-up), `false` = reads 0 (pressed). -/
abbrev Trace := Nat → Bool

/-- Whole-machine state: the two control globals of `Semaforo_2.c`, the three
LED output latches, and the number of pending one-shot alarms. -/
structure Sys where
  sequence_active : Bool
  step : Int
  led_vermelho : Bool
  led_azul : Bool
  led_verde : Bool
  pending : Nat
  deriving DecidableEq

/-- The three LED output levels of a state, as (vermelho, azul, verde). -/
def leds (s : Sys) : Bool × Bool × Bool :=
  (s.led_vermelho, s.led_azul, s.led_verde)

/-- The release-wait loop `while (gpio_get(BOTAO) == 0) { sleep_ms(10); }` of
`botao_pressionado_debounce`, entered at elapsed time `t`: sample the line at
`t`, `t+10`, `t+20`, ... until a sample reads 1, returning the time of that
sample; `none` when the fuel runs out before a released sample is seen. -/
def waitRelease (σ : Trace) : Nat → Nat → Option Nat
  | _, 0 => none
  | t, fuel + 1 => if σ t then some t else waitRelease σ (t + 10) fuel

/-- `botao_pressionado_debounce` of `Semaforo_2.c`, threading the machine
state through the call (its body performs no write to any global or output):
sample at elapsed time 0; if the line reads 1 return `false` at once;
otherwise `sleep_ms(50)` and re-sample at 50; if it reads 0 wait for release
(polling every 10 ms) and return `true`, else return `false`.  The result is
the returned boolean together with the machine state at return; `none` when
the release wait exhausts its fuel. -/
def botao_pressionado_debounce (σ : Trace) (fuel : Nat) (s : Sys) :
    Option (Bool × Sys) :=
  if σ 0 then
    some (false, s)
  else if σ 50 = false then
    match waitRelease σ 50 fuel with
    | some _ => some (true, s)
    | none => none
  else
    some (false, s)

/-- `add_alarm_in_ms(3000, alarm_callback, NULL, false)`: arm one more
pending one-shot alarm. -/
def add_alarm_in_ms (s : Sys) : Sys :=
  { s with pending := s.pending + 1 }

/-- `alarm_callback` of `Semaforo_2.c`: switch on `step`.  Case 1: LEDs
(1,1,0), `step = 2`, re-arm; case 2: LEDs (1,0,0), `step = 3`, re-arm;
case 3: LEDs (0,0,0), `step = 0`, `sequence_active = false`, no re-arm.
The switch has no other case, so any other `step` leaves the state
untouched. -/
def alarm_callback (s : Sys) : Sys :=
  if s.step = 1 then
    add_alarm_in_ms
      { s with led_vermelho := true, led_azul := true, led_verde := false,
               step := 2 }
  else if s.step = 2 then
    add_alarm_in_ms
      { s with led_vermelho := true, led_azul := false, led_verde := false,
               step := 3 }
  else if s.step = 3 then
    { s with led_vermelho := false, led_azul := false, led_verde := false,
             step := 0, sequence_active := false }
  else
    s

/-- Delivery of a pending one-shot alarm: only possible when at least one
alarm is pending; consumes it and runs `alarm_callback`. -/
def alarm_fire (s : Sys) : Option Sys :=
  if s.pending = 0 then
    none
  else
    some (alarm_callback { s with pending := s.pending - 1 })

/-- The body of the `if (!sequence_active && botao_pressionado_debounce())`
branch of `main`: set `sequence_active`, `step = 1`, light the three LEDs,
and arm the first 3000 ms alarm. -/
def start_sequence (s : Sys) : Sys :=
  add_alarm_in_ms
    { s with sequence_active := true, step := 1,
             led_vermelho := true, led_azul := true, led_verde := true }

/-- One iteration of the main loop of `Semaforo_2.c`.  The `&&` of the loop
condition short-circuits: when `sequence_active` holds the debounce routine
is never entered.  Returns the state after the iteration paired with whether
`botao_pressionado_debounce` was invoked during the iteration; `none` when
the invoked debounce call has not returned within its fuel. -/
def main_loop_iter (σ : Trace) (fuel : Nat) (s : Sys) : Option (Sys × Bool) :=
  if s.sequence_active then
    some (s, false)
  else
    match botao_pressionado_debounce σ fuel s with
    | none => none
    | some (b, s1) => if b then some (start_sequence s1, true) else some (s1, true)

/-- An event of the system: one main-loop iteration (with the button trace
seen by that iteration and the fuel of its debounce call), or the delivery
of a pending alarm. -/
inductive Ev where
  | loopIter (σ : Trace) (fuel : Nat)
  | alarm

/-- Small-step semantics: the effect of one event on the machine state,
`none` when the event is not enabled (no pending alarm) or not yet
returned (debounce fuel exhausted). -/
def stepEv : Ev → Sys → Option Sys
  | Ev.loopIter σ fuel, s => (main_loop_iter σ fuel s).map Prod.fst
  | Ev.alarm, s => alarm_fire s

/-- The state after the initialization in `main`: both globals at their
static initializers, the three LEDs driven low, no alarm armed. -/
def init : Sys :=
  ⟨false, 0, false, false, false, 0⟩

/-- Reachable states: `init` and everything obtainable by events. -/
inductive Reach : Sys → Prop where
  | init : Reach init
  | next : ∀ {s s' : Sys} {e : Ev}, Reach s → stepEv e s = some s' → Reach s'

/-- The inductive invariant of the sequencer: the phase is one of 0..3, the
phase is 0 exactly when the sequence is not active, and exactly one alarm is
pending while active, none while idle. -/
def SysInv (s : Sys) : Prop :=
  (s.step = 0 ∨ s.step = 1 ∨ s.step = 2 ∨ s.step = 3) ∧
  (s.step = 0 ↔ s.sequence_active = false) ∧
  s.pending = (if s.sequence_active then 1 else 0)

instance (s : Sys) : Decidable (SysInv s) := by
  unfold SysInv
  infer_instance

/-- The debounce routine writes no global and no output: whenever it
returns, the machine state it returns is the one it was given. -/
theorem botao_frame (σ : Trace) (fuel : Nat) (s : Sys) (b : Bool) (s1 : Sys)
    (h : botao_pressionado_debounce σ fuel s = some (b, s1)) : s1 = s := by
  unfold botao_pressionado_debounce at h
  split at h
  · exact (Prod.mk.injEq _ _ _ _ ▸ Option.some.injEq _ _ ▸ h).2.symm ▸ rfl
  · split at h
    · cases hw : waitRelease σ 50 fuel with
      | none => rw [hw] at h; cases h
      | some t => rw [hw] at h; cases h; rfl
    · cases h; rfl

/-- Case analysis of one main-loop iteration: the iteration either leaves
the state unchanged, or (only from an inactive state) runs
`start_sequence`. -/
theorem main_loop_iter_spec (σ : Trace) (fuel : Nat) (s : Sys) (r : Sys × Bool)
    (h : main_loop_iter σ fuel s = some r) :
    r.1 = s ∨ (s.sequence_active = false ∧ r.1 = start_sequence s) := by
  unfold main_loop_iter at h
  split at h
  · cases h; exact Or.inl rfl
  · rename_i hA
    cases hd : botao_pressionado_debounce σ fuel s with
    | none => rw [hd] at h; cases h
    | some p =>
      obtain ⟨b, s1⟩ := p
      have hs1 : s1 = s := botao_frame σ fuel s b s1 hd
      rw [hd] at h
      by_cases hb : b = true
      · subst hb
        simp only [if_pos] at h
        cases h
        exact Or.inr ⟨Bool.eq_false_iff.mpr hA, by rw [hs1]⟩
      · rw [Bool.eq_false_iff.mpr hb] at h
        simp only [Bool.false_eq_true, if_false] at h
        cases h
        exact Or.inl hs1

/-- The debounce-invoked flag of a main-loop iteration is exactly the
negation of `sequence_active` (the short-circuit of `&&`). -/
theorem main_loop_iter_flag (σ : Trace) (fuel : Nat) (s : Sys) (r : Sys × Bool)
    (h : main_loop_iter σ fuel s = some r) :
    r.2 = !s.sequence_active := by
  unfold main_loop_iter at h
  split at h
  · rename_i hA
    cases h
    simp [hA]
  · rename_i hA
    cases hd : botao_pressionado_debounce σ fuel s with
    | none => rw [hd] at h; cases h
    | some p =>
      obtain ⟨b, s1⟩ := p
      rw [hd] at h
      rw [Bool.eq_false_iff.mpr hA]
      by_cases hb : b = true
      · subst hb; simp only [if_pos] at h; cases h; rfl
      · rw [Bool.eq_false_iff.mpr hb] at h
        simp only [Bool.false_eq_true, if_false] at h
        cases h; rfl

/-- A successful release wait returns the time of a released sample lying on
the 10 ms polling grid starting at the entry time. -/
theorem waitRelease_released (σ : Trace) :
    ∀ fuel t t', waitRelease σ t fuel = some t' →
      ∃ k, t' = t + 10 * k ∧ σ t' = true := by
  intro fuel
  induction fuel with
  | zero => intro t t' h; simp [waitRelease] at h
  | succ n ih =>
    intro t t' h
    by_cases hσ : σ t
    · simp only [waitRelease, hσ, if_true, Option.some.injEq] at h
      exact ⟨0, by omega, by rw [← h]; exact hσ⟩
    · simp only [waitRelease, hσ, if_false] at h
      obtain ⟨k, hk, hs⟩ := ih (t + 10) t' h
      exact ⟨k + 1, by omega, hs⟩

/-- If some sample on the polling grid reads released within the fuel, the
release wait succeeds. -/
theorem waitRelease_of_released (σ : Trace) :
    ∀ fuel t, (∃ k, k < fuel ∧ σ (t + 10 * k) = true) →
      ∃ t', waitRelease σ t fuel = some t' := by
  intro fuel
  induction fuel with
  | zero => rintro t ⟨k, hk, _⟩; omega
  | succ n ih =>
    rintro t ⟨k, hk, hσ⟩
    by_cases h0 : σ t
    · exact ⟨t, by simp [waitRelease, h0]⟩
    · cases k with
      | zero =>
        rw [Nat.mul_zero, Nat.add_zero] at hσ
        exact absurd hσ h0
      | succ m =>
        have hm : t + 10 * (m + 1) = (t + 10) + 10 * m := by ring
        rw [hm] at hσ
        obtain ⟨t', ht'⟩ := ih (t + 10) ⟨m, by omega, hσ⟩
        exact ⟨t', by simp [waitRelease, h0, ht']⟩

/-- While the release wait has not returned, every sample taken so far on
the polling grid read pressed. -/
theorem waitRelease_none_pressed (σ : Trace) :
    ∀ fuel t, waitRelease σ t fuel = none →
      ∀ k, k < fuel → σ (t + 10 * k) = false := by
  intro fuel
  induction fuel with
  | zero => intro t _ k hk; omega
  | succ n ih =>
    intro t h k hk
    by_cases hσ : σ t
    · simp [waitRelease, hσ] at h
    · simp only [waitRelease, hσ, if_false] at h
      cases k with
      | zero =>
        rw [Nat.mul_zero, Nat.add_zero]
        exact Bool.eq_false_iff.mpr hσ
      | succ m =>
        have hm : t + 10 * (m + 1) = (t + 10) + 10 * m := by ring
        rw [hm]
        exact ih (t + 10) h m (by omega)

/-- Every event preserves the sequencer invariant. -/
theorem sysInv_preserved (s s' : Sys) (e : Ev) (hI : SysInv s)
    (h : stepEv e s = some s') : SysInv s' := by
  obtain ⟨hrange, hiff, hpend⟩ := hI
  cases e with
  | loopIter σ fuel =>
    simp only [stepEv, Option.map_eq_some'] at h
    obtain ⟨r, hr, hr1⟩ := h
    rcases main_loop_iter_spec σ fuel s r hr with h1 | ⟨hA, h1⟩
    · rw [← hr1, h1]; exact ⟨hrange, hiff, hpend⟩
    · rw [hA, if_neg (by simp)] at hpend
      rw [← hr1, h1]
      refine ⟨Or.inr (Or.inl rfl), ?_, ?_⟩
      · simp [start_sequence, add_alarm_in_ms]
      · simp [start_sequence, add_alarm_in_ms, hpend]
  | alarm =>
    simp only [stepEv, alarm_fire] at h
    split at h
    · cases h
    · rename_i hp
      cases h
      have hact : s.sequence_active = true := by
        cases hA : s.sequence_active
        · rw [hA, if_neg (by simp)] at hpend; exact absurd hpend hp
        · rfl
      rw [hact, if_pos rfl] at hpend
      have hstep0 : ¬s.step = 0 := fun h0 => by
        rw [hact] at hiff
        simp at hiff
        exact hiff h0
      rcases hrange with h0 | h1 | h2 | h3
      · exact absurd h0 hstep0
      · refine ⟨?_, ?_, ?_⟩ <;>
          simp [alarm_callback, add_alarm_in_ms, h1, hact, hpend]
      · refine ⟨?_, ?_, ?_⟩ <;>
          simp [alarm_callback, add_alarm_in_ms, h2, hact, hpend]
      · refine ⟨?_, ?_, ?_⟩ <;>
          simp [alarm_callback, add_alarm_in_ms, h3, hact, hpend]

/-- Every reachable state satisfies the sequencer invariant. -/
theorem reach_inv (s : Sys) (h : Reach s) : SysInv s := by
  induction h with
  | init => decide
  | next hR hstep ih => exact sysInv_preserved _ _ _ ih hstep

/-- C1: for every reachable state of the program, the sequencer phase lies
in {0,1,2,3}, and the phase is 0 exactly when `sequence_active` is false,
after initialization and after every button-triggered entry and every
timer-callback transition. -/
theorem claim_C1_reachable_invariant (s : Sys) (h : Reach s) :
    (s.step = 0 ∨ s.step = 1 ∨ s.step = 2 ∨ s.step = 3) ∧
    (s.step = 0 ↔ s.sequence_active = false) := by
  obtain ⟨h1, h2, _⟩ := reach_inv s h
  exact ⟨h1, h2⟩

/-- Witness for C1 at the initial state. -/
theorem claim_C1_witness :
    (init.step = 0 ∨ init.step = 1 ∨ init.step = 2 ∨ init.step = 3) ∧
    (init.step = 0 ↔ init.sequence_active = false) :=
  claim_C1_reachable_invariant init Reach.init

/-- C2: from idle, a single validated click sets `sequence_active`, phase 1
and all three outputs on; the three successive timer expiries then produce
the patterns (1,1,0) at phase 2, (1,0,0) at phase 3 and (0,0,0) back at
phase 0 with `sequence_active` false, so the observed pattern sequence is
exactly (1,1,1), (1,1,0), (1,0,0), (0,0,0) and the state returns to idle. -/
theorem claim_C2_single_click_sequence (s : Sys) (σ : Trace) (fuel : Nat)
    (hidle : s.sequence_active = false) (_hstep0 : s.step = 0)
    (hclick : botao_pressionado_debounce σ fuel s = some (true, s)) :
    ∃ s1 s2 s3 s4,
      main_loop_iter σ fuel s = some (s1, true) ∧
      s1.sequence_active = true ∧ s1.step = 1 ∧ leds s1 = (true, true, true) ∧
      alarm_fire s1 = some s2 ∧
      s2.sequence_active = true ∧ s2.step = 2 ∧ leds s2 = (true, true, false) ∧
      alarm_fire s2 = some s3 ∧
      s3.sequence_active = true ∧ s3.step = 3 ∧ leds s3 = (true, false, false) ∧
      alarm_fire s3 = some s4 ∧
      s4.sequence_active = false ∧ s4.step = 0 ∧ leds s4 = (false, false, false) := by
  refine ⟨⟨true, 1, true, true, true, s.pending + 1⟩,
          ⟨true, 2, true, true, false, s.pending + 1⟩,
          ⟨true, 3, true, false, false, s.pending + 1⟩,
          ⟨false, 0, false, false, false, s.pending⟩,
          ?_, rfl, rfl, rfl, ?_, rfl, rfl, rfl, ?_, rfl, rfl, rfl, ?_, rfl, rfl, rfl⟩
  · simp [main_loop_iter, hidle, hclick, start_sequence, add_alarm_in_ms]
  · simp [alarm_fire, alarm_callback, add_alarm_in_ms]
  · simp [alarm_fire, alarm_callback, add_alarm_in_ms]
  · simp [alarm_fire, alarm_callback, add_alarm_in_ms]

/-- Witness for C2: a concrete click trace (pressed until 60 ms) from the
initial state. -/
theorem claim_C2_witness :
    ∃ s1 s2 s3 s4,
      main_loop_iter (fun t => decide (60 ≤ t)) 2 init = some (s1, true) ∧
      s1.sequence_active = true ∧ s1.step = 1 ∧ leds s1 = (true, true, true) ∧
      alarm_fire s1 = some s2 ∧
      s2.sequence_active = true ∧ s2.step = 2 ∧ leds s2 = (true, true, false) ∧
      alarm_fire s2 = some s3 ∧
      s3.sequence_active = true ∧ s3.step = 3 ∧ leds s3 = (true, false, false) ∧
      alarm_fire s3 = some s4 ∧
      s4.sequence_active = false ∧ s4.step = 0 ∧ leds s4 = (false, false, false) :=
  claim_C2_single_click_sequence init (fun t => decide (60 ≤ t)) 2 rfl rfl (by decide)

/-- C3: while `sequence_active` is true a button event causes no state
change at all: the loop iteration returns the state unchanged (phase,
active flag, outputs and pending timers identical) and the debounce
routine is not even invoked, so the subsequent trace is identical to the
trace without the click. -/
theorem claim_C3_button_ignored_while_active (s : Sys) (σ : Trace)
    (fuel : Nat) (h : s.sequence_active = true) :
    main_loop_iter σ fuel s = some (s, false) := by
  simp [main_loop_iter, h]

/-- Witness for C3 at a concrete phase-1 state. -/
theorem claim_C3_witness :
    main_loop_iter (fun _ => true) 0 ⟨true, 1, true, true, true, 1⟩ =
      some (⟨true, 1, true, true, true, 1⟩, false) :=
  claim_C3_button_ignored_while_active ⟨true, 1, true, true, true, 1⟩
    (fun _ => true) 0 rfl

/-- C4 counterexample: invoking the timer callback in the idle state
(phase 0) is a silent no-op returning the state, outputs included,
unchanged — the switch in `alarm_callback` has no case for `step == 0`,
no default, and no assert — refuting the claim that such an invocation is
treated as a fatal, unrecoverable fault. -/
theorem claim_C4_counterexample : alarm_callback init = init := by
  decide

/-- C4 amended: a timer-callback invocation while the phase is 0 is a
silent no-op that leaves the whole state, outputs included, unchanged. -/
theorem claim_C4_idle_alarm_noop (s : Sys) (h : s.step = 0) :
    alarm_callback s = s := by
  simp [alarm_callback, h]

/-- Witness for the amended C4 at a phase-0 state with stale outputs. -/
theorem claim_C4_witness :
    alarm_callback ⟨false, 0, true, true, false, 0⟩ =
      ⟨false, 0, true, true, false, 0⟩ :=
  claim_C4_idle_alarm_noop ⟨false, 0, true, true, false, 0⟩ rfl

/-- C5: the debounce routine returns false immediately when the first
sample reads released; returns false with no further action when the first
sample reads pressed but the re-sample at 50 ms reads released; and when
both read pressed it re-samples every 10 ms and returns true once a sample
reads released. -/
theorem claim_C5_debounce_cases (σ : Trace) (fuel : Nat) (s : Sys) :
    (σ 0 = true → botao_pressionado_debounce σ fuel s = some (false, s)) ∧
    (σ 0 = false → σ 50 = true →
      botao_pressionado_debounce σ fuel s = some (false, s)) ∧
    (σ 0 = false → σ 50 = false → ∀ k, σ (50 + 10 * k) = true →
      ∃ fu, botao_pressionado_debounce σ fu s = some (true, s)) := by
  refine ⟨?_, ?_, ?_⟩
  · intro h0
    simp [botao_pressionado_debounce, h0]
  · intro h0 h50
    simp [botao_pressionado_debounce, h0, h50]
  · intro h0 h50 k hk
    obtain ⟨t1, ht1⟩ := waitRelease_of_released σ (k + 1) 50 ⟨k, by omega, hk⟩
    exact ⟨k + 1, by simp [botao_pressionado_debounce, h0, h50, ht1]⟩

/-- Witness for C5, first case, on the all-released trace. -/
theorem claim_C5_witness :
    botao_pressionado_debounce (fun _ => true) 0 init = some (false, init) :=
  (claim_C5_debounce_cases (fun _ => true) 0 init).1 rfl

/-- C6: phase transitions are strictly sequential: from every reachable
state, an event either leaves the phase unchanged or performs one of the
successions 0 to 1 (main-loop button entry), 1 to 2, 2 to 3, 3 to 0 (alarm
deliveries); no phase is skipped or revisited out of this order. -/
theorem claim_C6_strict_ordering (s s' : Sys) (e : Ev) (h : Reach s)
    (hstep : stepEv e s = some s') :
    s'.step = s.step ∨
    ((∃ σ fuel, e = Ev.loopIter σ fuel) ∧ s.step = 0 ∧ s'.step = 1) ∨
    (e = Ev.alarm ∧ s.step = 1 ∧ s'.step = 2) ∨
    (e = Ev.alarm ∧ s.step = 2 ∧ s'.step = 3) ∨
    (e = Ev.alarm ∧ s.step = 3 ∧ s'.step = 0) := by
  obtain ⟨hrange, hiff, hpend⟩ := reach_inv s h
  cases e with
  | loopIter σ fuel =>
    simp only [stepEv, Option.map_eq_some'] at hstep
    obtain ⟨r, hr, hr1⟩ := hstep
    rcases main_loop_iter_spec σ fuel s r hr with h1 | ⟨hA, h1⟩
    · exact Or.inl (by rw [← hr1, h1])
    · refine Or.inr (Or.inl ⟨⟨σ, fuel, rfl⟩, hiff.mpr hA, ?_⟩)
      rw [← hr1, h1]
      simp [start_sequence, add_alarm_in_ms]
  | alarm =>
    simp only [stepEv, alarm_fire] at hstep
    split at hstep
    · cases hstep
    · rename_i hp
      cases hstep
      have hact : s.sequence_active = true := by
        cases hA : s.sequence_active
        · rw [hA, if_neg (by simp)] at hpend
          exact absurd hpend hp
        · rfl
      have hne0 : ¬s.step = 0 := fun h0 => by
        rw [hiff.mp h0, if_neg (by simp)] at hpend
        exact hp hpend
      rcases hrange with h0 | h1 | h2 | h3
      · exact absurd h0 hne0
      · exact Or.inr (Or.inr (Or.inl ⟨rfl, h1,
          by simp [alarm_callback, add_alarm_in_ms, h1]⟩))
      · exact Or.inr (Or.inr (Or.inr (Or.inl ⟨rfl, h2,
          by simp [alarm_callback, add_alarm_in_ms, h2]⟩)))
      · exact Or.inr (Or.inr (Or.inr (Or.inr ⟨rfl, h3,
          by simp [alarm_callback, add_alarm_in_ms, h3]⟩)))

/-- Witness for C6: a clickless loop iteration at the initial state. -/
theorem claim_C6_witness :
    init.step = init.step ∨
    ((∃ σ fuel, Ev.loopIter (fun _ => true) 1 = Ev.loopIter σ fuel) ∧
      init.step = 0 ∧ init.step = 1) ∨
    (Ev.loopIter (fun _ => true) 1 = Ev.alarm ∧ init.step = 1 ∧ init.step = 2) ∨
    (Ev.loopIter (fun _ => true) 1 = Ev.alarm ∧ init.step = 2 ∧ init.step = 3) ∨
    (Ev.loopIter (fun _ => true) 1 = Ev.alarm ∧ init.step = 3 ∧ init.step = 0) :=
  claim_C6_strict_ordering init init (Ev.loopIter (fun _ => true) 1)
    Reach.init rfl

/-- C7: the debounce routine never modifies the sequencer state or the
outputs: whatever it returns, phase, active flag, the three output levels
and the pending-timer count are exactly what they were at the call. -/
theorem claim_C7_debounce_frame (σ : Trace) (fuel : Nat) (s : Sys) (b : Bool)
    (s1 : Sys) (h : botao_pressionado_debounce σ fuel s = some (b, s1)) :
    s1.sequence_active = s.sequence_active ∧ s1.step = s.step ∧
    leds s1 = leds s ∧ s1.pending = s.pending := by
  rw [botao_frame σ fuel s b s1 h]
  exact ⟨rfl, rfl, rfl, rfl⟩

/-- Witness for C7 on the all-released trace at the initial state. -/
theorem claim_C7_witness :
    init.sequence_active = init.sequence_active ∧ init.step = init.step ∧
    leds init = leds init ∧ init.pending = init.pending :=
  claim_C7_debounce_frame (fun _ => true) 0 init false init (by decide)

/-- C8: in every reachable state exactly one alarm is pending while
`sequence_active` and none while idle; an alarm delivery at phase 1 or 2
leaves exactly one pending (the callback re-arms), a delivery at phase 3
leaves none (no re-arm), and the button entry arms one. -/
theorem claim_C8_single_pending_timer (s : Sys) (h : Reach s) :
    (s.sequence_active = true → s.pending = 1) ∧
    (s.sequence_active = false → s.pending = 0) ∧
    ((s.step = 1 ∨ s.step = 2) →
      Option.map Sys.pending (alarm_fire s) = some 1) ∧
    (s.step = 3 → Option.map Sys.pending (alarm_fire s) = some 0) ∧
    (start_sequence s).pending = s.pending + 1 := by
  obtain ⟨hrange, hiff, hpend⟩ := reach_inv s h
  have hact_of : ∀ z : Int, s.step = z → ¬z = 0 → s.sequence_active = true := by
    intro z hz hz0
    cases hA : s.sequence_active
    · exact absurd (hz ▸ hiff.mpr hA) hz0
    · rfl
  refine ⟨?_, ?_, ?_, ?_, rfl⟩
  · intro hA; rw [hpend, if_pos hA]
  · intro hA; rw [hpend, hA, if_neg (by simp)]
  · intro h12
    rcases h12 with h1 | h2
    · have hp1 : s.pending = 1 := by
        rw [hpend, if_pos (hact_of 1 h1 (by norm_num))]
      simp [alarm_fire, alarm_callback, add_alarm_in_ms, hp1, h1]
    · have hp1 : s.pending = 1 := by
        rw [hpend, if_pos (hact_of 2 h2 (by norm_num))]
      simp [alarm_fire, alarm_callback, add_alarm_in_ms, hp1, h2]
  · intro h3
    have hp1 : s.pending = 1 := by
      rw [hpend, if_pos (hact_of 3 h3 (by norm_num))]
    simp [alarm_fire, alarm_callback, add_alarm_in_ms, hp1, h3]

/-- Witness for C8 at the initial state. -/
theorem claim_C8_witness :
    (init.sequence_active = true → init.pending = 1) ∧
    (init.sequence_active = false → init.pending = 0) ∧
    ((init.step = 1 ∨ init.step = 2) →
      Option.map Sys.pending (alarm_fire init) = some 1) ∧
    (init.step = 3 → Option.map Sys.pending (alarm_fire init) = some 0) ∧
    (start_sequence init).pending = init.pending + 1 :=
  claim_C8_single_pending_timer init Reach.init

/-- C9: when the first sample and the 50 ms confirmation sample both read
pressed, the debounce routine returns exactly when some sample on the 10 ms
polling grid reads released, and any return under these hypotheses reports
true. -/
theorem claim_C9_release_termination (σ : Trace) (s : Sys)
    (h0 : σ 0 = false) (h50 : σ 50 = false) :
    ((∃ fuel, botao_pressionado_debounce σ fuel s = some (true, s)) ↔
      (∃ k, σ (50 + 10 * k) = true)) ∧
    (∀ fuel b s1, botao_pressionado_debounce σ fuel s = some (b, s1) →
      b = true) := by
  constructor
  · constructor
    · rintro ⟨fuel, hf⟩
      simp only [botao_pressionado_debounce, h0, h50, Bool.false_eq_true,
        if_false, if_true] at hf
      cases hw : waitRelease σ 50 fuel with
      | none => rw [hw] at hf; cases hf
      | some t1 =>
        obtain ⟨k, hk, hrel⟩ := waitRelease_released σ fuel 50 t1 hw
        exact ⟨k, by rw [← hk]; exact hrel⟩
    · rintro ⟨k, hk⟩
      obtain ⟨t1, ht1⟩ := waitRelease_of_released σ (k + 1) 50 ⟨k, by omega, hk⟩
      exact ⟨k + 1, by simp [botao_pressionado_debounce, h0, h50, ht1]⟩
  · intro fuel b s1 hf
    simp only [botao_pressionado_debounce, h0, h50, Bool.false_eq_true,
      if_false, if_true] at hf
    cases hw : waitRelease σ 50 fuel with
    | none => rw [hw] at hf; cases hf
    | some t1 => rw [hw] at hf; cases hf; rfl

/-- Witness for C9 on a trace pressed until released at 60 ms. -/
theorem claim_C9_witness :
    ((∃ fuel, botao_pressionado_debounce (fun t => decide (60 ≤ t)) fuel init =
        some (true, init)) ↔
      (∃ k, (fun t => decide (60 ≤ t) : Trace) (50 + 10 * k) = true)) ∧
    (∀ fuel b s1,
      botao_pressionado_debounce (fun t => decide (60 ≤ t)) fuel init =
        some (b, s1) → b = true) :=
  claim_C9_release_termination (fun t => decide (60 ≤ t)) init rfl rfl

/-- C10: the main-loop condition short-circuits on `!sequence_active`: the
debounce routine (the only reader of the input line) is invoked in an
iteration exactly when `sequence_active` is false at that iteration, so
while a sequence is active the button input is never sampled. -/
theorem claim_C10_no_sampling_while_active (σ : Trace) (fuel : Nat) (s : Sys)
    (r : Sys × Bool) (h : main_loop_iter σ fuel s = some r) :
    r.2 = !s.sequence_active ∧ (s.sequence_active = true → r.2 = false) := by
  have hf := main_loop_iter_flag σ fuel s r h
  exact ⟨hf, fun hA => by rw [hf, hA]; rfl⟩

/-- Witness for C10 at a concrete phase-1 active state. -/
theorem claim_C10_witness :
    (((⟨true, 1, true, true, true, 1⟩, false) : Sys × Bool).2 =
      !(⟨true, 1, true, true, true, 1⟩ : Sys).sequence_active) ∧
    ((⟨true, 1, true, true, true, 1⟩ : Sys).sequence_active = true →
      ((⟨true, 1, true, true, true, 1⟩, false) : Sys × Bool).2 = false) :=
  claim_C10_no_sampling_while_active (fun _ => true) 0
    ⟨true, 1, true, true, true, 1⟩ (⟨true, 1, true, true, true, 1⟩, false) rfl
